import Mathlib

/-!
Shallow embedding of the EHR backend (src/backend/server.py).

The document store is modelled as lists of records in insertion order;
`find_one` is `List.find?` (first match) and `update_one` updates the
first matching record.  Timestamps are natural numbers; fresh uuids are
passed in as explicit parameters.  Fallible endpoints return
`Except HTTPError`, mirroring `HTTPException(status_code, detail)`.
-/

/-- Roles, from `class UserRole(str, Enum)`. -/
inductive UserRole where
  | super_admin
  | front_desk
  | doctor
  | patient
deriving DecidableEq, Repr

/-- Patient lifecycle states, from `class PatientStatus(str, Enum)`. -/
inductive PatientStatus where
  | registered
  | consulting
  | completed
deriving DecidableEq, Repr

/-- `User` pydantic model (without the separately stored password hash). -/
structure User where
  id : String
  email : String
  name : String
  role : UserRole
  created_at : Nat
  is_active : Bool
deriving DecidableEq, Repr

/-- A user document as stored in `db.users`: the `User` fields plus the
hashed password (`user_with_password` in `register`). -/
structure StoredUser where
  user : User
  password : String
deriving DecidableEq, Repr

/-- `UserCreate` request model. -/
structure UserCreate where
  email : String
  password : String
  name : String
  role : UserRole
deriving DecidableEq, Repr

/-- `UserLogin` request model. -/
structure UserLogin where
  email : String
  password : String
deriving DecidableEq, Repr

/-- `Patient` pydantic model. -/
structure Patient where
  id : String
  patient_id : String
  name : String
  email : String
  phone : String
  date_of_birth : String
  gender : String
  address : String
  emergency_contact : String
  medical_history : String
  status : PatientStatus
  assigned_doctor_id : Option String
  created_by : String
  created_at : Nat
  updated_at : Nat
deriving DecidableEq, Repr

/-- `PatientCreate` request model. -/
structure PatientCreate where
  name : String
  email : String
  phone : String
  date_of_birth : String
  gender : String
  address : String
  emergency_contact : String
  medical_history : String
deriving DecidableEq, Repr

/-- `SOAPNotes` pydantic model. -/
structure SOAPNotes where
  id : String
  patient_id : String
  doctor_id : String
  subjective : String
  objective : String
  assessment : String
  plan : String
  consultation_date : Nat
  created_at : Nat
deriving DecidableEq, Repr

/-- `SOAPNotesCreate` request model (`doctor_id` is filled from the caller). -/
structure SOAPNotesCreate where
  patient_id : String
  subjective : String
  objective : String
  assessment : String
  plan : String
deriving DecidableEq, Repr

/-- `Appointment` pydantic model. -/
structure Appointment where
  id : String
  patient_id : String
  doctor_id : String
  appointment_date : Nat
  status : String
  notes : String
  created_at : Nat
deriving DecidableEq, Repr

/-- `AppointmentCreate` request model. -/
structure AppointmentCreate where
  patient_id : String
  doctor_id : String
  appointment_date : Nat
  notes : String
deriving DecidableEq, Repr

/-- `HTTPException(status_code, detail)`. -/
structure HTTPError where
  status_code : Nat
  detail : String
deriving DecidableEq, Repr

/-- The document store: the four collections used by the server, each a
list of documents in insertion order. -/
structure DB where
  users : List StoredUser
  patients : List Patient
  soap_notes : List SOAPNotes
  appointments : List Appointment
deriving DecidableEq, Repr

/-- `hash_password`: bcrypt is a black-box one-way function; we model the
hash as a tagged copy of the input so that `verify_password p (hash p)`
holds, which is the only property the server relies on. -/
def hash_password (password : String) : String :=
  "bcrypt$" ++ password

/-- `verify_password`: `bcrypt.checkpw`. -/
def verify_password (password hashed : String) : Bool :=
  hashed == hash_password password

/-- String form of a role, as carried in the JWT payload
(the roles are `str` enums in the source). -/
def roleStr : UserRole → String
  | UserRole.super_admin => "super_admin"
  | UserRole.front_desk => "front_desk"
  | UserRole.doctor => "doctor"
  | UserRole.patient => "patient"

/-- The JWT payload: `{user_id, role, exp}`.  Signature validity is
implicit (we model only tokens signed with the process secret). -/
structure JWTPayload where
  user_id : String
  role : String
  exp : Nat
deriving DecidableEq, Repr

/-- `create_jwt_token(user_id, role)`: expiry is issue time + 86400 s. -/
def create_jwt_token (user_id : String) (role : String) (now : Nat) : JWTPayload :=
  { user_id := user_id, role := role, exp := now + 86400 }

/-- `db.users.find_one({"email": email})`. -/
def find_one_user_by_email (db : DB) (email : String) : Option StoredUser :=
  db.users.find? (fun u => u.user.email == email)

/-- `db.users.find_one({"id": user_id})`. -/
def find_one_user_by_id (db : DB) (user_id : String) : Option StoredUser :=
  db.users.find? (fun u => u.user.id == user_id)

/-- `db.patients.find_one({"id": patient_id})`. -/
def find_one_patient_by_id (db : DB) (patient_id : String) : Option Patient :=
  db.patients.find? (fun p => p.id == patient_id)

/-- `db.patients.find_one({"email": email})`. -/
def find_one_patient_by_email (db : DB) (email : String) : Option Patient :=
  db.patients.find? (fun p => p.email == email)

/-- `get_current_user`: decode the token (expiry is checked by
`jwt.decode`), reject a falsy `user_id`, then re-fetch the user record
by id; 401 if absent.  Note: the stored `is_active` flag is never
consulted. -/
def get_current_user (db : DB) (token : JWTPayload) (now : Nat) :
    Except HTTPError User :=
  if token.exp ≤ now then
    Except.error { status_code := 401, detail := "Token expired" }
  else if token.user_id = "" then
    Except.error { status_code := 401, detail := "Invalid token" }
  else
    match find_one_user_by_id db token.user_id with
    | none => Except.error { status_code := 401, detail := "User not found" }
    | some su => Except.ok su.user

/-- `POST /register`: fail 400 when the email is already present, else
store the user with the hashed password and return its fresh id. -/
def register (db : DB) (user_data : UserCreate) (newId : String) (now : Nat) :
    Except HTTPError (DB × String) :=
  match find_one_user_by_email db user_data.email with
  | some _ => Except.error { status_code := 400, detail := "Email already registered" }
  | none =>
    let hashed := hash_password user_data.password
    let user : User :=
      { id := newId, email := user_data.email, name := user_data.name,
        role := user_data.role, created_at := now, is_active := true }
    Except.ok ({ db with users := db.users ++ [{ user := user, password := hashed }] }, newId)

/-- `POST /login`: look up by email, verify the password, issue a token
carrying the stored id and role. -/
def login (db : DB) (login_data : UserLogin) (now : Nat) :
    Except HTTPError (JWTPayload × User) :=
  match find_one_user_by_email db login_data.email with
  | none => Except.error { status_code := 401, detail := "Invalid credentials" }
  | some su =>
    if verify_password login_data.password su.password then
      Except.ok (create_jwt_token su.user.id (roleStr su.user.role) now, su.user)
    else
      Except.error { status_code := 401, detail := "Invalid credentials" }

/-- `db.patients.update_one({"id": pid}, {"$set": ...})`: apply `f` to
the first record whose id matches; return the new list and whether a
record matched (`matched_count > 0`). -/
def update_first (ps : List Patient) (pid : String) (f : Patient → Patient) :
    List Patient × Bool :=
  match ps with
  | [] => ([], false)
  | p :: rest =>
    if p.id == pid then (f p :: rest, true)
    else
      let r := update_first rest pid f
      (p :: r.1, r.2)

/-- `POST /patients`: front-desk/super-admin only; status starts
`registered`, creator and timestamps stamped, no doctor assigned. -/
def create_patient (db : DB) (patient_data : PatientCreate) (current_user : User)
    (newId pcode : String) (now : Nat) : Except HTTPError (DB × Patient) :=
  if current_user.role = UserRole.front_desk ∨ current_user.role = UserRole.super_admin then
    let p : Patient :=
      { id := newId, patient_id := pcode, name := patient_data.name,
        email := patient_data.email, phone := patient_data.phone,
        date_of_birth := patient_data.date_of_birth, gender := patient_data.gender,
        address := patient_data.address, emergency_contact := patient_data.emergency_contact,
        medical_history := patient_data.medical_history,
        status := PatientStatus.registered, assigned_doctor_id := none,
        created_by := current_user.id, created_at := now, updated_at := now }
    Except.ok ({ db with patients := db.patients ++ [p] }, p)
  else
    Except.error { status_code := 403, detail := "Not authorized to create patients" }

/-- `GET /patients`: a patient-role caller gets at most their own record
(first record matching their email); everyone else gets the full list. -/
def get_patients (db : DB) (current_user : User) : List Patient :=
  if current_user.role = UserRole.patient then
    match find_one_patient_by_email db current_user.email with
    | some p => [p]
    | none => []
  else
    db.patients

/-- `GET /patients/{id}`: 404 if absent; a patient-role caller may only
see the record matching their own email (403 otherwise). -/
def get_patient (db : DB) (patient_id : String) (current_user : User) :
    Except HTTPError Patient :=
  match find_one_patient_by_id db patient_id with
  | none => Except.error { status_code := 404, detail := "Patient not found" }
  | some p =>
    if current_user.role = UserRole.patient ∧ ¬ (p.email = current_user.email) then
      Except.error { status_code := 403, detail := "Not authorized" }
    else
      Except.ok p

/-- The `$set` document built by `update_patient_status`: status and
`updated_at` always; `assigned_doctor_id` only when the parameter is
truthy (present and non-empty). -/
def applyStatusUpdate (p : Patient) (status : PatientStatus)
    (assigned_doctor_id : Option String) (now : Nat) : Patient :=
  let p1 := { p with status := status, updated_at := now }
  match assigned_doctor_id with
  | some d => if d = "" then p1 else { p1 with assigned_doctor_id := some d }
  | none => p1

/-- `PUT /patients/{id}/status`: role gate first (403 for patient role),
then update the first matching record; 404 when nothing matched. -/
def update_patient_status (db : DB) (patient_id : String) (status : PatientStatus)
    (assigned_doctor_id : Option String) (current_user : User) (now : Nat) :
    Except HTTPError (DB × String) :=
  if current_user.role = UserRole.front_desk ∨ current_user.role = UserRole.doctor ∨
      current_user.role = UserRole.super_admin then
    let r := update_first db.patients patient_id
      (fun p => applyStatusUpdate p status assigned_doctor_id now)
    if r.2 then
      Except.ok ({ db with patients := r.1 }, "Patient status updated successfully")
    else
      Except.error { status_code := 404, detail := "Patient not found" }
  else
    Except.error { status_code := 403, detail := "Not authorized" }

/-- `POST /soap-notes`: doctor/super-admin only; insert the note with
the caller as author, then unconditionally `$set` the referenced
patient's status to completed (a no-op when no record matches — the
patient's existence is never checked). -/
def create_soap_notes (db : DB) (soap_data : SOAPNotesCreate) (current_user : User)
    (newId : String) (now : Nat) : Except HTTPError (DB × SOAPNotes) :=
  if current_user.role = UserRole.doctor ∨ current_user.role = UserRole.super_admin then
    let note : SOAPNotes :=
      { id := newId, patient_id := soap_data.patient_id, doctor_id := current_user.id,
        subjective := soap_data.subjective, objective := soap_data.objective,
        assessment := soap_data.assessment, plan := soap_data.plan,
        consultation_date := now, created_at := now }
    let r := update_first db.patients soap_data.patient_id
      (fun p => { p with status := PatientStatus.completed, updated_at := now })
    Except.ok ({ db with soap_notes := db.soap_notes ++ [note], patients := r.1 }, note)
  else
    Except.error { status_code := 403, detail := "Only doctors can create SOAP notes" }

/-- `POST /appointments`: any authenticated caller; the patient and
doctor references are taken from the request body unchecked. -/
def create_appointment (db : DB) (appointment_data : AppointmentCreate)
    (newId : String) (now : Nat) : DB × Appointment :=
  let a : Appointment :=
    { id := newId, patient_id := appointment_data.patient_id,
      doctor_id := appointment_data.doctor_id,
      appointment_date := appointment_data.appointment_date,
      status := "scheduled", notes := appointment_data.notes, created_at := now }
  ({ db with appointments := db.appointments ++ [a] }, a)

/-- `GET /appointments`: patient role filters by their own patient
record's id when one matches their email (otherwise the query stays
empty and everything is returned); doctor role filters by their own id;
other roles get everything. -/
def get_appointments (db : DB) (current_user : User) : List Appointment :=
  if current_user.role = UserRole.patient then
    match find_one_patient_by_email db current_user.email with
    | some p => db.appointments.filter (fun a => a.patient_id == p.id)
    | none => db.appointments
  else if current_user.role = UserRole.doctor then
    db.appointments.filter (fun a => a.doctor_id == current_user.id)
  else
    db.appointments

/-- The role-shaped `GET /dashboard/stats` response: the admin shape has
the four counts, the doctor shape two, and the patient shape is the
empty dict. -/
inductive DashboardStats where
  | adminStats (total_patients registered_patients consulting_patients
      completed_patients : Nat)
  | doctorStats (assigned_patients consulting_patients : Nat)
  | emptyStats
deriving DecidableEq, Repr

/-- `GET /dashboard/stats`: live `count_documents` per role. -/
def get_dashboard_stats (db : DB) (current_user : User) : DashboardStats :=
  if current_user.role = UserRole.super_admin ∨ current_user.role = UserRole.front_desk then
    DashboardStats.adminStats
      db.patients.length
      (db.patients.countP (fun p => p.status = PatientStatus.registered))
      (db.patients.countP (fun p => p.status = PatientStatus.consulting))
      (db.patients.countP (fun p => p.status = PatientStatus.completed))
  else if current_user.role = UserRole.doctor then
    DashboardStats.doctorStats
      (db.patients.countP (fun p => p.assigned_doctor_id = some current_user.id))
      (db.patients.countP (fun p =>
        p.assigned_doctor_id = some current_user.id ∧ p.status = PatientStatus.consulting))
  else
    DashboardStats.emptyStats

/-! ### Helper lemmas about the store primitives -/

/-- `find?` over an extended list when the prefix has no match. -/
theorem find?_append_of_none {α : Type} (l1 l2 : List α) (p : α → Bool)
    (h : l1.find? p = none) : (l1 ++ l2).find? p = l2.find? p := by
  simp [List.find?_append, h]

/-- When a record with the given id is found, `update_first` reports a
match and the updated list's first match for that id is the transformed
record (provided the transform preserves the id). -/
theorem update_first_found (ps : List Patient) (pid : String) (f : Patient → Patient)
    (hf : ∀ q, (f q).id = q.id) (p0 : Patient)
    (h : ps.find? (fun p => p.id == pid) = some p0) :
    (update_first ps pid f).1.find? (fun p => p.id == pid) = some (f p0) ∧
      (update_first ps pid f).2 = true := by
  induction ps with
  | nil => simp at h
  | cons p rest ih =>
    by_cases hpid : p.id = pid
    · have hb : (p.id == pid) = true := by simp [hpid]
      have hp0 : p0 = p := by
        rw [List.find?_cons_of_pos (p := fun q => q.id == pid) rest hb] at h
        exact (Option.some.inj h).symm
      subst hp0
      constructor
      · simp [update_first, hb, hf p0, hpid]
      · simp [update_first, hb]
    · have hb : (p.id == pid) = false := by simp [hpid]
      rw [List.find?_cons_of_neg (p := fun q => q.id == pid) rest (by simp [hpid])] at h
      obtain ⟨h1, h2⟩ := ih h
      constructor
      · simp [update_first, hb, h1]
      · simp [update_first, hb, h2]

/-- When no record with the given id exists, `update_first` reports no
match and leaves the list unchanged. -/
theorem update_first_not_found (ps : List Patient) (pid : String) (f : Patient → Patient)
    (h : ps.find? (fun p => p.id == pid) = none) :
    update_first ps pid f = (ps, false) := by
  induction ps with
  | nil => rfl
  | cons p rest ih =>
    cases hb : (p.id == pid) with
    | true =>
      rw [List.find?_cons_of_pos (p := fun q => q.id == pid) rest hb] at h
      exact absurd h (by simp)
    | false =>
      rw [List.find?_cons_of_neg (p := fun q => q.id == pid) rest (by simp [hb])] at h
      simp [update_first, hb, ih h]

/-! ### Concrete sample data for witnesses and counterexamples -/

def drSmith : User :=
  { id := "u-doc", email := "doctor@clinic.com", name := "Dr. Smith",
    role := UserRole.doctor, created_at := 0, is_active := true }

def frontDeskUser : User :=
  { id := "u-fd", email := "frontdesk@clinic.com", name := "Front Desk Staff",
    role := UserRole.front_desk, created_at := 0, is_active := true }

def johnUser : User :=
  { id := "u-pat", email := "patient@example.com", name := "John Doe",
    role := UserRole.patient, created_at := 0, is_active := true }

def johnRec : Patient :=
  { id := "pr-1", patient_id := "P12345678", name := "John Doe",
    email := "patient@example.com", phone := "555", date_of_birth := "1990-01-15",
    gender := "Male", address := "123 Main St", emergency_contact := "556",
    medical_history := "none", status := PatientStatus.registered,
    assigned_doctor_id := none, created_by := "u-fd", created_at := 0, updated_at := 0 }

def baseDb : DB :=
  { users :=
      [{ user := drSmith, password := hash_password "doctor123" },
       { user := johnUser, password := hash_password "patient123" }],
    patients := [johnRec], soap_notes := [], appointments := [] }

def soapReq : SOAPNotesCreate :=
  { patient_id := "pr-1", subjective := "s", objective := "o",
    assessment := "a", plan := "p" }

/-! ### C1 -/

/-- C1: for every patient record and every doctor or super-admin caller,
after `create_soap_notes` succeeds, a subsequent `get_patient` on the
(existing) referenced record shows status `completed`, regardless of the
record's status before the call. -/
theorem C1_note_creation_completes_patient
    (db : DB) (soap_data : SOAPNotesCreate) (u : User) (newId : String) (now : Nat)
    (hrole : u.role = UserRole.doctor ∨ u.role = UserRole.super_admin)
    (p0 : Patient) (hp : find_one_patient_by_id db soap_data.patient_id = some p0)
    (db' : DB) (note : SOAPNotes)
    (hok : create_soap_notes db soap_data u newId now = Except.ok (db', note)) :
    ∃ p, get_patient db' soap_data.patient_id u = Except.ok p ∧
      p.status = PatientStatus.completed := by
  have hnotpat : ¬ u.role = UserRole.patient := by
    rcases hrole with h | h <;> simp [h]
  unfold create_soap_notes at hok
  rw [if_pos hrole] at hok
  simp only [Except.ok.injEq, Prod.mk.injEq] at hok
  obtain ⟨hdb, -⟩ := hok
  subst hdb
  have hfind := update_first_found db.patients soap_data.patient_id
      (fun p => { p with status := PatientStatus.completed, updated_at := now })
      (fun q => rfl) p0 hp
  refine ⟨{ p0 with status := PatientStatus.completed, updated_at := now }, ?_, rfl⟩
  unfold get_patient find_one_patient_by_id
  simp [hfind.1, hnotpat]

def johnCompleted : Patient :=
  { johnRec with status := PatientStatus.completed, updated_at := 5 }

def cNote1 : SOAPNotes :=
  { id := "n1", patient_id := "pr-1", doctor_id := "u-doc", subjective := "s",
    objective := "o", assessment := "a", plan := "p", consultation_date := 5,
    created_at := 5 }

def dbAfterNote : DB :=
  { users := baseDb.users, patients := [johnCompleted], soap_notes := [cNote1],
    appointments := [] }

/-- Witness for C1 at a concrete store: the doctor writes a note for the
existing record `pr-1` and then reads it back as `completed`. -/
theorem C1_note_creation_completes_patient_witness :
    ∃ p, get_patient dbAfterNote "pr-1" drSmith = Except.ok p ∧
      p.status = PatientStatus.completed :=
  C1_note_creation_completes_patient baseDb soapReq drSmith "n1" 5 (Or.inl rfl)
    johnRec rfl dbAfterNote cNote1 rfl

/-! ### C2 -/

def noPatientsDb : DB :=
  { users := [{ user := drSmith, password := hash_password "doctor123" }],
    patients := [], soap_notes := [], appointments := [] }

/-- C2 counterexample: with no patient record in the store at all, a
doctor's note creation still succeeds and inserts a note whose patient
reference matches no record — so notes do not always reference an
existing Patient Record and creation does not fail on a missing one. -/
theorem C2_note_without_patient_counterexample :
    ∃ r, create_soap_notes noPatientsDb soapReq drSmith "n1" 5 = Except.ok r ∧
      r.2.patient_id = "pr-1" ∧ find_one_patient_by_id r.1 "pr-1" = none := by
  refine ⟨({ noPatientsDb with soap_notes := [cNote1] }, cNote1), rfl, rfl, rfl⟩

/-- C2 amended: note creation never checks that the referenced patient
exists; for a doctor or super-admin caller it succeeds even when no
record matches, inserting the note unchanged and leaving the patients
collection untouched (the completion update matches nothing). -/
theorem C2_no_patient_existence_check
    (db : DB) (soap_data : SOAPNotesCreate) (u : User) (newId : String) (now : Nat)
    (hrole : u.role = UserRole.doctor ∨ u.role = UserRole.super_admin)
    (hnone : find_one_patient_by_id db soap_data.patient_id = none) :
    ∃ note, create_soap_notes db soap_data u newId now =
        Except.ok ({ db with soap_notes := db.soap_notes ++ [note] }, note) ∧
      note.patient_id = soap_data.patient_id := by
  have hup := update_first_not_found db.patients soap_data.patient_id
    (fun p => { p with status := PatientStatus.completed, updated_at := now }) hnone
  refine ⟨SOAPNotes.mk newId soap_data.patient_id u.id soap_data.subjective
      soap_data.objective soap_data.assessment soap_data.plan now now, ?_, rfl⟩
  unfold create_soap_notes
  rw [if_pos hrole, hup]

/-- Witness for C2's amended statement on a store with no patients. -/
theorem C2_no_patient_existence_check_witness :
    ∃ note, create_soap_notes noPatientsDb soapReq drSmith "n1" 5 =
        Except.ok ({ noPatientsDb with soap_notes := noPatientsDb.soap_notes ++ [note] }, note) ∧
      note.patient_id = "pr-1" :=
  C2_no_patient_existence_check noPatientsDb soapReq drSmith "n1" 5 (Or.inl rfl) rfl

/-! ### C3 -/

def inactiveUser : User :=
  { id := "u-x", email := "x@clinic.com", name := "X", role := UserRole.doctor,
    created_at := 0, is_active := false }

def dbInactive : DB :=
  { users := [{ user := inactiveUser, password := hash_password "pw" }],
    patients := [], soap_notes := [], appointments := [] }

/-- C3 counterexample: a token issued for an identity whose active flag
has been set to false still resolves successfully — `get_current_user`
never consults `is_active`, so resolution does not fail on a
deactivated account. -/
theorem C3_deactivated_still_resolves_counterexample :
    get_current_user dbInactive (create_jwt_token "u-x" "doctor" 0) 10 =
      Except.ok inactiveUser ∧ inactiveUser.is_active = false :=
  ⟨rfl, rfl⟩

/-- C3 amended: resolution fails only when the identity record is
absent (deleted) from the store; a present identity — active or not —
resolves to the stored record, so the resolved role equals the role at
issuance. -/
theorem C3_resolution_requires_presence_not_activity
    (db : DB) (su : StoredUser) (tokNow resNow : Nat)
    (hid : ¬ su.user.id = "")
    (hfresh : resNow < tokNow + 86400) :
    (find_one_user_by_id db su.user.id = some su →
      get_current_user db (create_jwt_token su.user.id (roleStr su.user.role) tokNow) resNow =
        Except.ok su.user) ∧
    (find_one_user_by_id db su.user.id = none →
      get_current_user db (create_jwt_token su.user.id (roleStr su.user.role) tokNow) resNow =
        Except.error { status_code := 401, detail := "User not found" }) := by
  have h1 : ¬ (tokNow + 86400 ≤ resNow) := by omega
  constructor
  · intro hf
    simp [get_current_user, create_jwt_token, h1, hid, hf]
  · intro hf
    simp [get_current_user, create_jwt_token, h1, hid, hf]

/-- Witness for C3's amended statement: a present (and a deleted)
identity at concrete inputs. -/
theorem C3_resolution_requires_presence_not_activity_witness :
    (get_current_user dbInactive (create_jwt_token "u-x" "doctor" 3) 20 =
      Except.ok inactiveUser) ∧
    (get_current_user noPatientsDb (create_jwt_token "u-x" "doctor" 3) 20 =
      Except.error { status_code := 401, detail := "User not found" }) :=
  ⟨(C3_resolution_requires_presence_not_activity dbInactive
      { user := inactiveUser, password := hash_password "pw" } 3 20 (by decide) (by omega)).1 rfl,
   (C3_resolution_requires_presence_not_activity noPatientsDb
      { user := inactiveUser, password := hash_password "pw" } 3 20 (by decide) (by omega)).2 rfl⟩

/-! ### C4 -/

/-- C4 counterexample: a patient-role caller hitting a nonexistent id
gets 403 (the role gate fires first), not the claimed NotFound. -/
theorem C4_patient_role_gets_403_counterexample :
    update_patient_status noPatientsDb "nope" PatientStatus.consulting none johnUser 0 =
      Except.error { status_code := 403, detail := "Not authorized" } ∧
    (403 : Nat) ≠ 404 :=
  ⟨rfl, by decide⟩

/-- C4 amended: `updateStatus` on an id absent from the store fails with
NotFound for front-desk, doctor and super-admin callers; a patient-role
caller instead fails with 403 regardless of the id. -/
theorem C4_update_missing_patient
    (db : DB) (pid : String) (st : PatientStatus) (docId : Option String)
    (u : User) (now : Nat) :
    ((u.role = UserRole.front_desk ∨ u.role = UserRole.doctor ∨
        u.role = UserRole.super_admin) →
      find_one_patient_by_id db pid = none →
      update_patient_status db pid st docId u now =
        Except.error { status_code := 404, detail := "Patient not found" }) ∧
    (u.role = UserRole.patient →
      update_patient_status db pid st docId u now =
        Except.error { status_code := 403, detail := "Not authorized" }) := by
  constructor
  · intro hrole hnone
    have hup := update_first_not_found db.patients pid
      (fun p => applyStatusUpdate p st docId now) hnone
    simp [update_patient_status, hrole, hup]
  · intro hrole
    simp [update_patient_status, hrole]

/-- Witness for C4's amended statement at a concrete empty store. -/
theorem C4_update_missing_patient_witness :
    (update_patient_status noPatientsDb "nope" PatientStatus.consulting none frontDeskUser 0 =
      Except.error { status_code := 404, detail := "Patient not found" }) ∧
    (update_patient_status noPatientsDb "nope" PatientStatus.completed none johnUser 0 =
      Except.error { status_code := 403, detail := "Not authorized" }) :=
  ⟨(C4_update_missing_patient noPatientsDb "nope" PatientStatus.consulting none
      frontDeskUser 0).1 (Or.inl rfl) rfl,
   (C4_update_missing_patient noPatientsDb "nope" PatientStatus.completed none
      johnUser 0).2 rfl⟩

/-! ### C5 -/

def emptyDb : DB :=
  { users := [], patients := [], soap_notes := [], appointments := [] }

/-- C5: starting from a store without the email, `register` then `login`
with the same credentials succeeds, and the issued token resolves to an
identity whose role is the registered role. -/
theorem C5_register_login_roundtrip
    (db : DB) (email pwd nm : String) (role : UserRole) (newId : String)
    (t0 t1 t2 : Nat)
    (hemail : find_one_user_by_email db email = none)
    (hfresh : find_one_user_by_id db newId = none)
    (hid : ¬ newId = "")
    (hexp : t2 < t1 + 86400) :
    ∃ db', register db ⟨email, pwd, nm, role⟩ newId t0 = Except.ok (db', newId) ∧
      ∃ tok usr, login db' ⟨email, pwd⟩ t1 = Except.ok (tok, usr) ∧
        ∃ u, get_current_user db' tok t2 = Except.ok u ∧ u.role = role := by
  have hlogin_find : find_one_user_by_email
      { db with users := db.users ++
        [⟨⟨newId, email, nm, role, t0, true⟩, hash_password pwd⟩] } email =
      some ⟨⟨newId, email, nm, role, t0, true⟩, hash_password pwd⟩ := by
    unfold find_one_user_by_email at hemail ⊢
    rw [find?_append_of_none _ _ _ hemail]
    simp
  have hid_find : find_one_user_by_id
      { db with users := db.users ++
        [⟨⟨newId, email, nm, role, t0, true⟩, hash_password pwd⟩] } newId =
      some ⟨⟨newId, email, nm, role, t0, true⟩, hash_password pwd⟩ := by
    unfold find_one_user_by_id at hfresh ⊢
    rw [find?_append_of_none _ _ _ hfresh]
    simp
  refine ⟨{ db with users := db.users ++
      [⟨⟨newId, email, nm, role, t0, true⟩, hash_password pwd⟩] }, ?_, ?_⟩
  · simp [register, hemail]
  · refine ⟨create_jwt_token newId (roleStr role) t1,
      ⟨newId, email, nm, role, t0, true⟩, ?_, ?_⟩
    · simp [login, hlogin_find, verify_password]
    · refine ⟨⟨newId, email, nm, role, t0, true⟩, ?_, rfl⟩
      have h1 : ¬ (t1 + 86400 ≤ t2) := by omega
      simp [get_current_user, create_jwt_token, h1, hid, hid_find]

/-- Witness for C5 on an initially empty store. -/
theorem C5_register_login_roundtrip_witness :
    ∃ db', register emptyDb ⟨"a@b.c", "pw", "A", UserRole.front_desk⟩ "u1" 0 =
        Except.ok (db', "u1") ∧
      ∃ tok usr, login db' ⟨"a@b.c", "pw"⟩ 1 = Except.ok (tok, usr) ∧
        ∃ u, get_current_user db' tok 2 = Except.ok u ∧ u.role = UserRole.front_desk :=
  C5_register_login_roundtrip emptyDb "a@b.c" "pw" "A" UserRole.front_desk "u1"
    0 1 2 rfl rfl (by decide) (by omega)

/-! ### C6 -/

/-- C6: after a successful registration, a second registration with the
same email fails with 400 and the store retains exactly the first
identity for that email. -/
theorem C6_duplicate_email_conflict
    (db : DB) (d1 d2 : UserCreate) (newId newId2 : String) (t0 t1 : Nat)
    (hemail : d2.email = d1.email)
    (h0 : find_one_user_by_email db d1.email = none) :
    ∀ db1 r, register db d1 newId t0 = Except.ok (db1, r) →
      register db1 d2 newId2 t1 =
        Except.error { status_code := 400, detail := "Email already registered" } ∧
      db1.users.filter (fun su => su.user.email == d1.email) =
        [⟨⟨newId, d1.email, d1.name, d1.role, t0, true⟩, hash_password d1.password⟩] := by
  intro db1 r hreg
  unfold register at hreg
  rw [h0] at hreg
  simp only [Except.ok.injEq, Prod.mk.injEq] at hreg
  obtain ⟨hdb1, -⟩ := hreg
  subst hdb1
  have hnil : db.users.filter (fun su => su.user.email == d1.email) = [] := by
    unfold find_one_user_by_email at h0
    rw [List.filter_eq_nil_iff]
    intro a ha
    simpa using List.find?_eq_none.mp h0 a ha
  constructor
  · have hfound : find_one_user_by_email
        { db with users := db.users ++
          [⟨⟨newId, d1.email, d1.name, d1.role, t0, true⟩, hash_password d1.password⟩] }
        d2.email =
        some ⟨⟨newId, d1.email, d1.name, d1.role, t0, true⟩, hash_password d1.password⟩ := by
      unfold find_one_user_by_email at h0 ⊢
      rw [hemail, find?_append_of_none _ _ _ h0]
      simp
    simp [register, hfound]
  · simp [List.filter_append, hnil]

def dbOneUser : DB :=
  { users := [⟨⟨"u1", "a@b.c", "A", UserRole.front_desk, 0, true⟩, hash_password "pw"⟩],
    patients := [], soap_notes := [], appointments := [] }

/-- Witness for C6 at a concrete pair of registrations. -/
theorem C6_duplicate_email_conflict_witness :
    register dbOneUser ⟨"a@b.c", "pw2", "B", UserRole.doctor⟩ "u2" 1 =
      Except.error { status_code := 400, detail := "Email already registered" } ∧
    dbOneUser.users.filter (fun su => su.user.email == "a@b.c") =
      [⟨⟨"u1", "a@b.c", "A", UserRole.front_desk, 0, true⟩, hash_password "pw"⟩] :=
  C6_duplicate_email_conflict emptyDb ⟨"a@b.c", "pw", "A", UserRole.front_desk⟩
    ⟨"a@b.c", "pw2", "B", UserRole.doctor⟩ "u1" "u2" 0 1 rfl rfl dbOneUser "u1" rfl

/-! ### C7 -/

/-- C7: a patient-role caller's `get_patients` returns at most one
record, and a returned record's email equals the caller's email. -/
theorem C7_patient_list_scoped (db : DB) (u : User)
    (hrole : u.role = UserRole.patient) :
    ((get_patients db u).length = 0 ∨ (get_patients db u).length = 1) ∧
    ∀ p ∈ get_patients db u, p.email = u.email := by
  unfold get_patients
  rw [if_pos hrole]
  cases hf : find_one_patient_by_email db u.email with
  | none => simp
  | some p =>
    unfold find_one_patient_by_email at hf
    have hp := List.find?_some hf
    refine ⟨Or.inr rfl, ?_⟩
    intro q hq
    simp only [List.mem_singleton] at hq
    subst hq
    simpa using hp

/-- Witness for C7: John's patient-role call sees exactly his record. -/
theorem C7_patient_list_scoped_witness :
    (((get_patients baseDb johnUser).length = 0 ∨
      (get_patients baseDb johnUser).length = 1)) ∧
    ∀ p ∈ get_patients baseDb johnUser, p.email = johnUser.email :=
  C7_patient_list_scoped baseDb johnUser rfl

/-! ### C8 -/

def apptOwn : Appointment :=
  { id := "a1", patient_id := "pr-1", doctor_id := "u-doc", appointment_date := 3,
    status := "scheduled", notes := "", created_at := 3 }

def apptOther : Appointment :=
  { id := "a2", patient_id := "pr-2", doctor_id := "u-doc2", appointment_date := 4,
    status := "scheduled", notes := "", created_at := 4 }

def dbAppts : DB :=
  { users := baseDb.users, patients := [johnRec], soap_notes := [],
    appointments := [apptOwn, apptOther] }

/-- C8 counterexample: appointment creation is not ownership-scoped — a
patient-role caller (John, whose own record is `pr-1`) can create an
appointment referencing a different patient `pr-OTHER`, and it is
stored as given. -/
theorem C8_creation_unscoped_counterexample :
    johnUser.role = UserRole.patient ∧
    find_one_patient_by_email baseDb johnUser.email = some johnRec ∧
    ¬ johnRec.id = "pr-OTHER" ∧
    (create_appointment baseDb ⟨"pr-OTHER", "u-doc2", 7, ""⟩ "a1" 7).2.patient_id =
      "pr-OTHER" ∧
    (create_appointment baseDb ⟨"pr-OTHER", "u-doc2", 7, ""⟩ "a1" 7).1.appointments =
      [⟨"a1", "pr-OTHER", "u-doc2", 7, "scheduled", "", 7⟩] :=
  ⟨rfl, rfl, by decide, rfl, rfl⟩

/-- C8 amended: appointment listing is ownership-scoped — a patient-role
caller whose email matches a patient record sees only appointments for
that record, and a doctor-role caller only appointments with their own
doctor reference — but appointment creation is unrestricted: any
authenticated caller may insert an appointment with arbitrary patient
and doctor references. -/
theorem C8_listing_scoped_creation_unscoped (db : DB) (u : User) :
    (u.role = UserRole.patient →
      ∀ p, find_one_patient_by_email db u.email = some p →
        ∀ a ∈ get_appointments db u, a.patient_id = p.id) ∧
    (u.role = UserRole.doctor →
      ∀ a ∈ get_appointments db u, a.doctor_id = u.id) ∧
    (∀ d newId now,
      (create_appointment db d newId now).2.patient_id = d.patient_id ∧
      (create_appointment db d newId now).2.doctor_id = d.doctor_id ∧
      (create_appointment db d newId now).1.appointments =
        db.appointments ++ [(create_appointment db d newId now).2]) := by
  refine ⟨?_, ?_, ?_⟩
  · intro hrole p hp a ha
    simp [get_appointments, hrole, hp, List.mem_filter] at ha
    exact ha.2
  · intro hrole a ha
    simp [get_appointments, hrole, List.mem_filter] at ha
    exact ha.2
  · intro d newId now
    exact ⟨rfl, rfl, rfl⟩

/-- Witness for C8's amended statement on a concrete store with two
appointments. -/
theorem C8_listing_scoped_creation_unscoped_witness :
    (∀ a ∈ get_appointments dbAppts johnUser, a.patient_id = johnRec.id) ∧
    (∀ a ∈ get_appointments dbAppts drSmith, a.doctor_id = drSmith.id) ∧
    (create_appointment dbAppts ⟨"px", "dx", 9, ""⟩ "a3" 9).2.patient_id = "px" :=
  ⟨(C8_listing_scoped_creation_unscoped dbAppts johnUser).1 rfl johnRec rfl,
   (C8_listing_scoped_creation_unscoped dbAppts drSmith).2.1 rfl,
   ((C8_listing_scoped_creation_unscoped dbAppts johnUser).2.2
      ⟨"px", "dx", 9, ""⟩ "a3" 9).1⟩

/-! ### C9 -/

def pcA : PatientCreate := ⟨"A", "a@p", "1", "d", "g", "ad", "e", "m"⟩
def pcB : PatientCreate := ⟨"B", "b@p", "1", "d", "g", "ad", "e", "m"⟩
def pcC : PatientCreate := ⟨"C", "c@p", "1", "d", "g", "ad", "e", "m"⟩

/-- C9: dashboard stats are role-shaped — empty for a patient caller,
two assignment counts for a doctor, and the total plus the three status
counts for admin-class callers; in particular the spec's concrete
3-patient scenario (create three, move one to consulting) yields
total=3, registered=2, consulting=1, completed=0. -/
theorem C9_dashboard_role_shapes (db : DB) (u : User) :
    (u.role = UserRole.patient →
      get_dashboard_stats db u = DashboardStats.emptyStats) ∧
    (u.role = UserRole.doctor →
      get_dashboard_stats db u = DashboardStats.doctorStats
        (db.patients.filter (fun p => p.assigned_doctor_id = some u.id)).length
        (db.patients.filter (fun p =>
          p.assigned_doctor_id = some u.id ∧
            p.status = PatientStatus.consulting)).length) ∧
    ((u.role = UserRole.super_admin ∨ u.role = UserRole.front_desk) →
      get_dashboard_stats db u = DashboardStats.adminStats
        db.patients.length
        (db.patients.filter (fun p => p.status = PatientStatus.registered)).length
        (db.patients.filter (fun p => p.status = PatientStatus.consulting)).length
        (db.patients.filter (fun p => p.status = PatientStatus.completed)).length) ∧
    ((do
        let r1 ← create_patient emptyDb pcA frontDeskUser "pa" "PCA" 0
        let r2 ← create_patient r1.1 pcB frontDeskUser "pb" "PCB" 0
        let r3 ← create_patient r2.1 pcC frontDeskUser "pc" "PCC" 0
        let r4 ← update_patient_status r3.1 "pc" PatientStatus.consulting none
          frontDeskUser 1
        pure (get_dashboard_stats r4.1 frontDeskUser) :
          Except HTTPError DashboardStats) =
      Except.ok (DashboardStats.adminStats 3 2 1 0)) := by
  refine ⟨?_, ?_, ?_, ?_⟩
  · intro hrole
    simp [get_dashboard_stats, hrole]
  · intro hrole
    simp [get_dashboard_stats, hrole, List.countP_eq_length_filter]
  · intro hrole
    rcases hrole with h | h <;>
      simp [get_dashboard_stats, h, List.countP_eq_length_filter]
  · rfl

def consultingRec : Patient :=
  { id := "pr-2", patient_id := "P2", name := "K", email := "k@p", phone := "1",
    date_of_birth := "d", gender := "g", address := "a", emergency_contact := "e",
    medical_history := "m", status := PatientStatus.consulting,
    assigned_doctor_id := some "u-doc", created_by := "u-fd", created_at := 0,
    updated_at := 0 }

def dbStats : DB :=
  { users := [], patients := [johnRec, consultingRec], soap_notes := [],
    appointments := [] }

/-- Witness for C9 at a concrete two-patient store. -/
theorem C9_dashboard_role_shapes_witness :
    get_dashboard_stats dbStats johnUser = DashboardStats.emptyStats ∧
    get_dashboard_stats dbStats drSmith = DashboardStats.doctorStats 1 1 ∧
    get_dashboard_stats dbStats frontDeskUser = DashboardStats.adminStats 2 1 1 0 :=
  ⟨(C9_dashboard_role_shapes dbStats johnUser).1 rfl,
   (C9_dashboard_role_shapes dbStats drSmith).2.1 rfl,
   (C9_dashboard_role_shapes dbStats frontDeskUser).2.2.1 (Or.inr rfl)⟩

/-! ### C10 -/

/-- C10: a successful `updateStatus` on an existing record changes only
the status, the updated-at timestamp, and — only when a non-empty doctor
id is supplied — the assigned-doctor reference; every other field is
unchanged, an absent or empty doctor id leaves the assignment as it was,
and no call can clear an existing assignment. -/
theorem C10_update_status_frame
    (db : DB) (pid : String) (st : PatientStatus) (docId : Option String)
    (u : User) (now : Nat)
    (hrole : u.role = UserRole.front_desk ∨ u.role = UserRole.doctor ∨
      u.role = UserRole.super_admin)
    (p0 : Patient) (hp : find_one_patient_by_id db pid = some p0) :
    ∃ db' msg, update_patient_status db pid st docId u now = Except.ok (db', msg) ∧
      ∃ p1, find_one_patient_by_id db' pid = some p1 ∧
        p1.status = st ∧ p1.updated_at = now ∧
        p1.id = p0.id ∧ p1.patient_id = p0.patient_id ∧ p1.name = p0.name ∧
        p1.email = p0.email ∧ p1.phone = p0.phone ∧
        p1.date_of_birth = p0.date_of_birth ∧ p1.gender = p0.gender ∧
        p1.address = p0.address ∧ p1.emergency_contact = p0.emergency_contact ∧
        p1.medical_history = p0.medical_history ∧ p1.created_by = p0.created_by ∧
        p1.created_at = p0.created_at ∧
        ((docId = none ∨ docId = some "") →
          p1.assigned_doctor_id = p0.assigned_doctor_id) ∧
        (∀ d, docId = some d → ¬ d = "" → p1.assigned_doctor_id = some d) ∧
        (¬ p0.assigned_doctor_id = none → ¬ p1.assigned_doctor_id = none) := by
  have hfid : ∀ q, (applyStatusUpdate q st docId now).id = q.id := by
    intro q
    unfold applyStatusUpdate
    cases docId with
    | none => rfl
    | some d =>
      by_cases hd : d = ""
      · simp [hd]
      · simp [hd]
  have hupd := update_first_found db.patients pid
    (fun p => applyStatusUpdate p st docId now) hfid p0 hp
  refine ⟨{ db with patients := (update_first db.patients pid
        (fun p => applyStatusUpdate p st docId now)).1 },
      "Patient status updated successfully", ?_,
      applyStatusUpdate p0 st docId now, hupd.1, ?_⟩
  · unfold update_patient_status
    rw [if_pos hrole]
    simp [hupd.2]
  · unfold applyStatusUpdate
    cases docId with
    | none => simp
    | some d =>
      by_cases hd : d = ""
      · simp [hd]
      · simp [hd]

/-- Witness for C10: the front desk moves John's record to consulting
and assigns the doctor; only status, timestamp and assignment change. -/
theorem C10_update_status_frame_witness :
    ∃ db' msg, update_patient_status baseDb "pr-1" PatientStatus.consulting
        (some "u-doc") frontDeskUser 9 = Except.ok (db', msg) ∧
      ∃ p1, find_one_patient_by_id db' "pr-1" = some p1 ∧
        p1.status = PatientStatus.consulting ∧ p1.updated_at = 9 ∧
        p1.id = johnRec.id ∧ p1.patient_id = johnRec.patient_id ∧
        p1.name = johnRec.name ∧ p1.email = johnRec.email ∧
        p1.phone = johnRec.phone ∧ p1.date_of_birth = johnRec.date_of_birth ∧
        p1.gender = johnRec.gender ∧ p1.address = johnRec.address ∧
        p1.emergency_contact = johnRec.emergency_contact ∧
        p1.medical_history = johnRec.medical_history ∧
        p1.created_by = johnRec.created_by ∧ p1.created_at = johnRec.created_at ∧
        ((some "u-doc" = none ∨ some "u-doc" = some "") →
          p1.assigned_doctor_id = johnRec.assigned_doctor_id) ∧
        (∀ d, some "u-doc" = some d → ¬ d = "" → p1.assigned_doctor_id = some d) ∧
        (¬ johnRec.assigned_doctor_id = none → ¬ p1.assigned_doctor_id = none) :=
  C10_update_status_frame baseDb "pr-1" PatientStatus.consulting (some "u-doc")
    frontDeskUser 9 (Or.inl rfl) johnRec rfl
